import Mathlib

/-!
Verification of the session/action orchestration layer of the RTVI client
front-end (src/App.tsx), shallowly embedded in Lean 4.

The embedding models the local view state of the `RTVIApp` component
(messages list, uploaded-file list, toggle flags, analytics counters), the
transport-state predicate `isConnected`, the file-intake function
`processFile` of the `FileUploader` component, and every event handler that
dispatches a remote action through `client.action(...)`.

The external RTVI client is modelled by two environment parameters:
`clientPresent : Bool` (whether the `client` handle obtained from
`useRTVIClient()` is non-null) and `outcome : Bool` (whether the awaited
`client.action(...)` promise resolves, `true`, or rejects, `false`).
Each handler returns the updated component state together with the list of
remote action requests it issued, the browser alerts it raised, and the
console-error lines it logged, so that observable side effects can be
stated precisely.
-/

namespace RTVI

/-- Argument value of a remote action request: the source passes strings,
booleans, and small JSON objects as argument values. -/
inductive JValue where
  | str (s : String)
  | jbool (b : Bool)
  | obj (fields : List (String × JValue))
deriving Repr

/-- One named argument of a remote action request (`{ name, value }`). -/
structure ActionArg where
  name : String
  value : JValue
deriving Repr

/-- An `ActionRequest` as passed to `client.action({...})` in src/App.tsx:
a service name, an action name, and an ordered argument list. -/
structure ActionRequest where
  service : String
  action : String
  arguments : List ActionArg
deriving Repr

/-- The `FileData` interface (src/App.tsx lines 31-37). `size` is a byte
count, `data` the base64 payload with the data-URL prefix stripped. -/
structure FileData where
  name : String
  type : String
  size : Nat
  data : String
  uploadedAt : String
deriving Repr, DecidableEq

/-- Message sender tag (src/App.tsx line 40). -/
inductive Sender where
  | user
  | bot
  | system
deriving Repr, DecidableEq

/-- Message modality tag (src/App.tsx line 42). -/
inductive MsgType where
  | text
  | voice
  | system
deriving Repr, DecidableEq

/-- The `Message` interface (src/App.tsx lines 39-44). -/
structure Message where
  sender : Sender
  content : String
  type : MsgType
  timestamp : String
deriving Repr, DecidableEq

/-- The `Analytics` interface (src/App.tsx lines 46-51). -/
structure Analytics where
  totalMessages : Nat
  filesProcessed : Nat
  voiceMessages : Nat
  textMessages : Nat
deriving Repr, DecidableEq

/-- `CONFIG.maxFileSize = 50 * 1024 * 1024` (src/App.tsx line 58). -/
def maxFileSize : Nat := 50 * 1024 * 1024

/-- `CONFIG.allowedFileTypes` (src/App.tsx line 59), used only as the
`accept` attribute of the hidden file input (line 139). -/
def allowedFileTypes : List String := ["image/*", "application/pdf", ".docx", ".txt"]

/-- Whether string `s` starts with string `p`, computed on the character
lists. -/
def startsWithL (s p : String) : Bool :=
  s.data.take p.data.length == p.data

/-- Whether string `s` ends with string `p`, computed on the character
lists. -/
def endsWithL (s p : String) : Bool :=
  s.data.reverse.take p.data.length == p.data.reverse

/-- Modelled from the spec: the configured MIME allow-set predicate
("images, PDF, `.docx`, plain text").  The source contains no runtime
MIME check; this predicate renders the allow-set membership that the
spec's `UnsupportedType` clause refers to, following the semantics of the
`accept` attribute entries in `CONFIG.allowedFileTypes`: a `type/*`
pattern matches any MIME type beginning with that prefix, a full MIME
type matches exactly, and an extension entry matches the filename
suffix. -/
def mimeAllowed (mime : String) (filename : String) : Bool :=
  startsWithL mime "image/" || mime == "application/pdf"
    || endsWithL filename ".docx" || endsWithL filename ".txt"

/-- The local view state held by the `RTVIApp` component
(src/App.tsx lines 427-438): the conversation log, the retained uploaded
files, the three feature flags, and the analytics counters. -/
structure AppState where
  messages : List Message
  uploadedFiles : List FileData
  isScreenSharing : Bool
  isMicEnabled : Bool
  isCameraEnabled : Bool
  analytics : Analytics
deriving Repr, DecidableEq

/-- Initial component state (src/App.tsx lines 427-438): empty log, no
files, screen sharing off, mic on, camera off, all counters zero. -/
def initialState : AppState :=
  { messages := []
    uploadedFiles := []
    isScreenSharing := false
    isMicEnabled := true
    isCameraEnabled := false
    analytics := { totalMessages := 0, filesProcessed := 0, voiceMessages := 0, textMessages := 0 } }

/-- Environment of the `RTVIApp` component: whether `useRTVIClient()`
returned a non-null client, and the current transport state string from
`useRTVIClientTransportState()` (src/App.tsx lines 423-424). -/
structure Ctx where
  clientPresent : Bool
  transportState : String
deriving Repr, DecidableEq

/-- `const isConnected = ['connected', 'ready'].includes(transportState)`
(src/App.tsx line 440). -/
def isConnected (transportState : String) : Bool :=
  ["connected", "ready"].contains transportState

/-- Result of running one event handler: the updated component state, the
remote action requests issued through `client.action`, the browser alerts
raised, and the console-error messages logged. -/
structure HandlerResult where
  state : AppState
  calls : List ActionRequest
  alerts : List String
  consoleErrors : List String

/-- A raw browser `File` as seen before reading: name, MIME type, size. -/
structure RawFile where
  name : String
  type : String
  size : Nat
deriving Repr, DecidableEq

/-- Local file-intake failures of `processFile`: the size-ceiling alert
(src/App.tsx lines 72-75) and the `reader.onerror` alert (lines 91-94). -/
inductive IntakeError where
  | TooLarge
  | ReadFailed
deriving Repr, DecidableEq

/-- Split a character list at each comma, mirroring `String.split(',')`. -/
def splitOnComma : List Char → List (List Char)
  | [] => [[]]
  | c :: rest =>
      let r := splitOnComma rest
      if c = ',' then [] :: r
      else
        match r with
        | [] => [[c]]
        | h :: t => (c :: h) :: t

/-- `result.split(',')[1]` (src/App.tsx line 85): strip the
`data:type;base64,` prefix from the data URL produced by the reader. -/
def dataPart (result : String) : String :=
  match (splitOnComma result.data).drop 1 with
  | [] => ""
  | h :: _ => String.mk h

/-- `processFile` of the `FileUploader` component (src/App.tsx lines
71-96): reject a file larger than `CONFIG.maxFileSize`, otherwise read it
as a data URL (`readResult` is `some r` when `reader.onload` fires with
result `r`, `none` when `reader.onerror` fires) and produce the
`FileData` handed to `onFileUpload`.  No MIME-type check is performed. -/
def processFile (f : RawFile) (now : String) (readResult : Option String) :
    Except IntakeError FileData :=
  if f.size > maxFileSize then
    .error .TooLarge
  else
    match readResult with
    | none => .error .ReadFailed
    | some result =>
        .ok { name := f.name
              type := f.type
              size := f.size
              data := dataPart result
              uploadedAt := now }

/-- The alert text of the size-ceiling branch of `processFile`
(src/App.tsx line 73). -/
def tooLargeAlert : String :=
  "File too large. Max size: " ++ toString (maxFileSize / (1024 * 1024)) ++ "MB"

/-- Build a system message with the given content (the literal pattern
used by every handler: sender system, type system). -/
def sysMsg (content : String) (now : String) : Message :=
  { sender := .system, content := content, type := .system, timestamp := now }

/-- The `chat`/`send_text` request issued by `handleSendMessage`
(src/App.tsx lines 505-512). -/
def sendTextReq (message : String) : ActionRequest :=
  { service := "chat"
    action := "send_text"
    arguments := [⟨"message", .str message⟩, ⟨"mode", .str "mixed"⟩] }

/-- `handleSendMessage` (src/App.tsx lines 498-530): alert and return if
the client is null; otherwise await `client.action` with the
`chat`/`send_text` request; on resolution append the user text message
and bump `totalMessages` and `textMessages`; on rejection only log
`console.error` — the state is left untouched. -/
def handleSendMessage (ctx : Ctx) (outcome : Bool) (message : String)
    (now : String) (st : AppState) : HandlerResult :=
  if !ctx.clientPresent then
    { state := st, calls := [], alerts := ["Please connect first"], consoleErrors := [] }
  else if outcome then
    { state :=
        { st with
          messages := st.messages ++
            [{ sender := .user, content := message, type := .text, timestamp := now }]
          analytics :=
            { st.analytics with
              totalMessages := st.analytics.totalMessages + 1
              textMessages := st.analytics.textMessages + 1 } }
      calls := [sendTextReq message]
      alerts := []
      consoleErrors := [] }
  else
    { state := st
      calls := [sendTextReq message]
      alerts := []
      consoleErrors := ["Send message failed:"] }

/-- The `file_processor`/`upload_file` request issued by
`handleFileUpload` (src/App.tsx lines 462-470). -/
def uploadFileReq (fd : FileData) : ActionRequest :=
  { service := "file_processor"
    action := "upload_file"
    arguments :=
      [⟨"file_data", .str fd.data⟩, ⟨"filename", .str fd.name⟩, ⟨"file_type", .str fd.type⟩] }

/-- `handleFileUpload` (src/App.tsx lines 455-495): alert and return if
the client is null; otherwise await the `upload_file` action; on
resolution append the file to `uploadedFiles`, append a success system
message, and bump `filesProcessed`; on rejection log `console.error` and
append a failure system message naming the file — no file is retained. -/
def handleFileUpload (ctx : Ctx) (outcome : Bool) (fd : FileData)
    (now : String) (st : AppState) : HandlerResult :=
  if !ctx.clientPresent then
    { state := st, calls := [], alerts := ["Please connect first"], consoleErrors := [] }
  else if outcome then
    { state :=
        { st with
          uploadedFiles := st.uploadedFiles ++ [fd]
          messages := st.messages ++ [sysMsg ("File uploaded: " ++ fd.name) now]
          analytics := { st.analytics with filesProcessed := st.analytics.filesProcessed + 1 } }
      calls := [uploadFileReq fd]
      alerts := []
      consoleErrors := [] }
  else
    { state := { st with messages := st.messages ++ [sysMsg ("Failed to upload " ++ fd.name) now] }
      calls := [uploadFileReq fd]
      alerts := []
      consoleErrors := ["File upload failed:"] }

/-- The full intake path of one selected file: `processFile` in the
`FileUploader` (src/App.tsx lines 71-96) followed, when the read
succeeds, by the `onFileUpload` callback, which is `handleFileUpload`
(wired at line 761).  An intake failure raises the corresponding alert
and leaves the component state untouched with no remote call. -/
def submitFile (ctx : Ctx) (outcome : Bool) (f : RawFile)
    (readResult : Option String) (now : String) (st : AppState) : HandlerResult :=
  match processFile f now readResult with
  | .error .TooLarge =>
      { state := st, calls := [], alerts := [tooLargeAlert], consoleErrors := [] }
  | .error .ReadFailed =>
      { state := st, calls := [], alerts := ["Failed to read file"], consoleErrors := [] }
  | .ok fd => handleFileUpload ctx outcome fd now st

/-- The `screen`/`toggle_sharing` request issued by
`handleScreenShareToggle` (src/App.tsx lines 542-548). -/
def toggleSharingReq (enabled : Bool) : ActionRequest :=
  { service := "screen"
    action := "toggle_sharing"
    arguments := [⟨"enabled", .jbool enabled⟩] }

/-- `handleScreenShareToggle` (src/App.tsx lines 533-562): alert and
return if the client is null; otherwise compute `newState` as the
negation of the current flag, await the `toggle_sharing` action, and only
on resolution set the flag to `newState` and append a system message; on
rejection log `console.error` — the flag is never changed. -/
def handleScreenShareToggle (ctx : Ctx) (outcome : Bool) (now : String)
    (st : AppState) : HandlerResult :=
  if !ctx.clientPresent then
    { state := st, calls := [], alerts := ["Please connect first"], consoleErrors := [] }
  else
    let newState := !st.isScreenSharing
    if outcome then
      { state :=
          { st with
            isScreenSharing := newState
            messages := st.messages ++
              [sysMsg ("Screen sharing " ++ (if newState then "started" else "stopped")) now] }
        calls := [toggleSharingReq newState]
        alerts := []
        consoleErrors := [] }
    else
      { state := st
        calls := [toggleSharingReq newState]
        alerts := []
        consoleErrors := ["Screen share toggle failed:"] }

/-- The mic button `onClick` (src/App.tsx line 669):
`setIsMicEnabled(!isMicEnabled)` — a purely local flip, no remote call. -/
def micToggleClick (st : AppState) : HandlerResult :=
  { state := { st with isMicEnabled := !st.isMicEnabled }
    calls := []
    alerts := []
    consoleErrors := [] }

/-- The camera button `onClick` (src/App.tsx line 680):
`setIsCameraEnabled(!isCameraEnabled)` — a purely local flip, no remote
call. -/
def cameraToggleClick (st : AppState) : HandlerResult :=
  { state := { st with isCameraEnabled := !st.isCameraEnabled }
    calls := []
    alerts := []
    consoleErrors := [] }

/-- The `analysis`/`analyze_content` request issued by
`handleAnalyzeFile` (src/App.tsx lines 572-579). -/
def analyzeFileReq (file : FileData) : ActionRequest :=
  { service := "analysis"
    action := "analyze_content"
    arguments :=
      [⟨"content_type", .str "file"⟩,
       ⟨"data", .obj [("filename", .str file.name), ("type", .str file.type)]⟩] }

/-- `handleAnalyzeFile` (src/App.tsx lines 565-591): alert and return if
the client is null; otherwise await the `analyze_content` action; on
resolution append a system message; on rejection only log
`console.error`. -/
def handleAnalyzeFile (ctx : Ctx) (outcome : Bool) (file : FileData)
    (now : String) (st : AppState) : HandlerResult :=
  if !ctx.clientPresent then
    { state := st, calls := [], alerts := ["Please connect first"], consoleErrors := [] }
  else if outcome then
    { state := { st with messages := st.messages ++ [sysMsg ("Analyzing file: " ++ file.name) now] }
      calls := [analyzeFileReq file]
      alerts := []
      consoleErrors := [] }
  else
    { state := st
      calls := [analyzeFileReq file]
      alerts := []
      consoleErrors := ["File analysis failed:"] }

/-- The `analysis`/`analyze_content` request issued by
`handleRefreshAnalytics` (src/App.tsx lines 598-605). -/
def refreshAnalyticsReq : ActionRequest :=
  { service := "analysis"
    action := "analyze_content"
    arguments := [⟨"content_type", .str "conversation"⟩, ⟨"data", .obj []⟩] }

/-- `handleRefreshAnalytics` (src/App.tsx lines 594-612): silently return
if the client is null; otherwise await the `analyze_content` action and
only log its result or failure — the component state is never changed. -/
def handleRefreshAnalytics (ctx : Ctx) (outcome : Bool) (st : AppState) : HandlerResult :=
  if !ctx.clientPresent then
    { state := st, calls := [], alerts := [], consoleErrors := [] }
  else if outcome then
    { state := st, calls := [refreshAnalyticsReq], alerts := [], consoleErrors := [] }
  else
    { state := st, calls := [refreshAnalyticsReq], alerts := [],
      consoleErrors := ["Analytics refresh failed:"] }

/-- The welcome `useEffect` (src/App.tsx lines 443-452): when the message
list is empty, set it to the single welcome system message. -/
def welcomeEffect (now : String) (st : AppState) : AppState :=
  if st.messages.isEmpty then
    { st with messages :=
        [sysMsg "Welcome! Connect to start your multi-modal AI conversation." now] }
  else st

/-- One state-mutating event of the `RTVIApp` component, with the
environment choices (client presence, action outcome, reader result,
timestamps) recorded in the event itself. -/
inductive Op where
  | welcome (now : String)
  | sendMessage (ctx : Ctx) (outcome : Bool) (message now : String)
  | submitFile (ctx : Ctx) (outcome : Bool) (f : RawFile) (readResult : Option String) (now : String)
  | screenToggle (ctx : Ctx) (outcome : Bool) (now : String)
  | micClick
  | cameraClick
  | analyzeFile (ctx : Ctx) (outcome : Bool) (file : FileData) (now : String)
  | refreshAnalytics (ctx : Ctx) (outcome : Bool)

/-- Apply one event to the component state (dropping the observable
side-effect lists). -/
def applyOp (st : AppState) (op : Op) : AppState :=
  match op with
  | .welcome now => welcomeEffect now st
  | .sendMessage ctx outcome message now => (handleSendMessage ctx outcome message now st).state
  | .submitFile ctx outcome f readResult now => (submitFile ctx outcome f readResult now st).state
  | .screenToggle ctx outcome now => (handleScreenShareToggle ctx outcome now st).state
  | .micClick => (micToggleClick st).state
  | .cameraClick => (cameraToggleClick st).state
  | .analyzeFile ctx outcome file now => (handleAnalyzeFile ctx outcome file now st).state
  | .refreshAnalytics ctx outcome => (handleRefreshAnalytics ctx outcome st).state

/-- The component state reached from the initial state by a sequence of
events: exactly the reachable states of the orchestration layer. -/
def run (ops : List Op) : AppState :=
  ops.foldl applyOp initialState

/-- The analytics-sum invariant: `totalMessages` equals
`textMessages + voiceMessages`. -/
def analyticsInv (st : AppState) : Prop :=
  st.analytics.totalMessages = st.analytics.textMessages + st.analytics.voiceMessages

/-- The files invariant: `filesProcessed` equals the length of the
retained uploaded-file list. -/
def filesInv (st : AppState) : Prop :=
  st.analytics.filesProcessed = st.uploadedFiles.length

/-- Every event preserves the analytics-sum invariant. -/
theorem analyticsInv_applyOp (st : AppState) (op : Op) (h : analyticsInv st) :
    analyticsInv (applyOp st op) := by
  unfold analyticsInv at h ⊢
  cases op <;>
    simp only [applyOp, handleSendMessage, submitFile, handleFileUpload,
      handleScreenShareToggle, micToggleClick, cameraToggleClick, handleAnalyzeFile,
      handleRefreshAnalytics, welcomeEffect] <;>
    repeat' split
  all_goals simp_all
  all_goals omega

/-- The analytics-sum invariant propagates along any event sequence. -/
theorem analyticsInv_foldl (ops : List Op) :
    ∀ st : AppState, analyticsInv st → analyticsInv (ops.foldl applyOp st) := by
  induction ops with
  | nil => exact fun st h => h
  | cons op ops ih => exact fun st h => ih _ (analyticsInv_applyOp st op h)

/-- Every event preserves the files invariant. -/
theorem filesInv_applyOp (st : AppState) (op : Op) (h : filesInv st) :
    filesInv (applyOp st op) := by
  unfold filesInv at h ⊢
  cases op <;>
    simp only [applyOp, handleSendMessage, submitFile, handleFileUpload,
      handleScreenShareToggle, micToggleClick, cameraToggleClick, handleAnalyzeFile,
      handleRefreshAnalytics, welcomeEffect] <;>
    repeat' split
  all_goals simp_all

/-- The files invariant propagates along any event sequence. -/
theorem filesInv_foldl (ops : List Op) :
    ∀ st : AppState, filesInv st → filesInv (ops.foldl applyOp st) := by
  induction ops with
  | nil => exact fun st h => h
  | cons op ops ih => exact fun st h => ih _ (filesInv_applyOp st op h)

/-- C1 (counterexample): with a non-null client handle but transport state
"disconnected" — so the session is not usable — `handleSendMessage` still
issues the `send_text` remote call, refuting the claim that a dispatch
made while the phase is outside {connected, ready} never reaches the
channel. -/
theorem C1_dispatch_guard_counterexample :
    isConnected "disconnected" = false ∧
    (handleSendMessage ⟨true, "disconnected"⟩ true "hello" "t0" initialState).calls =
      [sendTextReq "hello"] := by
  exact ⟨by decide, rfl⟩

/-- C1 (amended): a remote action dispatch (send text, upload file, toggle
screen sharing, analyze file) is blocked locally exactly when the client
handle is null; it then raises the "Please connect first" alert, issues
no remote call, and leaves the component state unchanged.  The transport
phase is never consulted by these guards. -/
theorem C1_null_client_guard (ctx : Ctx) (outcome : Bool) (message now : String)
    (fd file : FileData) (st : AppState) (h : ctx.clientPresent = false) :
    (handleSendMessage ctx outcome message now st).calls = [] ∧
    (handleSendMessage ctx outcome message now st).alerts = ["Please connect first"] ∧
    (handleSendMessage ctx outcome message now st).state = st ∧
    (handleFileUpload ctx outcome fd now st).calls = [] ∧
    (handleFileUpload ctx outcome fd now st).state = st ∧
    (handleScreenShareToggle ctx outcome now st).calls = [] ∧
    (handleScreenShareToggle ctx outcome now st).state = st ∧
    (handleAnalyzeFile ctx outcome file now st).calls = [] ∧
    (handleAnalyzeFile ctx outcome file now st).state = st := by
  simp [handleSendMessage, handleFileUpload, handleScreenShareToggle, handleAnalyzeFile, h]

/-- Witness for the amended C1 at a concrete null-client context. -/
theorem C1_null_client_guard_witness :
    (Ctx.mk false "ready").clientPresent = false ∧
    ((handleSendMessage ⟨false, "ready"⟩ true "hi" "t0" initialState).calls = [] ∧
     (handleSendMessage ⟨false, "ready"⟩ true "hi" "t0" initialState).alerts =
       ["Please connect first"] ∧
     (handleSendMessage ⟨false, "ready"⟩ true "hi" "t0" initialState).state = initialState ∧
     (handleFileUpload ⟨false, "ready"⟩ true ⟨"a.txt", "text/plain", 3, "QUJD", "t0"⟩ "t0"
         initialState).calls = [] ∧
     (handleFileUpload ⟨false, "ready"⟩ true ⟨"a.txt", "text/plain", 3, "QUJD", "t0"⟩ "t0"
         initialState).state = initialState ∧
     (handleScreenShareToggle ⟨false, "ready"⟩ true "t0" initialState).calls = [] ∧
     (handleScreenShareToggle ⟨false, "ready"⟩ true "t0" initialState).state = initialState ∧
     (handleAnalyzeFile ⟨false, "ready"⟩ true ⟨"a.txt", "text/plain", 3, "QUJD", "t0"⟩ "t0"
         initialState).calls = [] ∧
     (handleAnalyzeFile ⟨false, "ready"⟩ true ⟨"a.txt", "text/plain", 3, "QUJD", "t0"⟩ "t0"
         initialState).state = initialState) :=
  ⟨rfl, C1_null_client_guard ⟨false, "ready"⟩ true "hi" "t0"
    ⟨"a.txt", "text/plain", 3, "QUJD", "t0"⟩ ⟨"a.txt", "text/plain", 3, "QUJD", "t0"⟩
    initialState rfl⟩

/-- C2 (counterexample): the mic toggle flips its local flag but issues no
remote call at all, refuting the claim that every feature toggle issues
an Action Gateway call. -/
theorem C2_toggle_counterexample :
    (micToggleClick initialState).state.isMicEnabled = (!initialState.isMicEnabled) ∧
    (micToggleClick initialState).calls = [] :=
  ⟨rfl, rfl⟩

/-- C2 (amended): the mic and camera toggles flip their local flag
immediately and issue no remote call; the screen-share toggle issues
exactly one `toggle_sharing` call carrying the negated flag and updates
its local flag only after the call resolves — the flag is the negation of
its old value on success and unchanged on failure. -/
theorem C2_toggles_behavior (ctx : Ctx) (outcome : Bool) (now : String) (st : AppState)
    (h : ctx.clientPresent = true) :
    (micToggleClick st).state.isMicEnabled = (!st.isMicEnabled) ∧
    (micToggleClick st).calls = [] ∧
    (cameraToggleClick st).state.isCameraEnabled = (!st.isCameraEnabled) ∧
    (cameraToggleClick st).calls = [] ∧
    (handleScreenShareToggle ctx outcome now st).calls =
      [toggleSharingReq (!st.isScreenSharing)] ∧
    (handleScreenShareToggle ctx outcome now st).state.isScreenSharing =
      (if outcome then !st.isScreenSharing else st.isScreenSharing) := by
  cases outcome <;> simp [micToggleClick, cameraToggleClick, handleScreenShareToggle, h]

/-- Witness for the amended C2 at a concrete connected context. -/
theorem C2_toggles_behavior_witness :
    (Ctx.mk true "ready").clientPresent = true ∧
    ((micToggleClick initialState).state.isMicEnabled = (!initialState.isMicEnabled) ∧
     (micToggleClick initialState).calls = [] ∧
     (cameraToggleClick initialState).state.isCameraEnabled =
       (!initialState.isCameraEnabled) ∧
     (cameraToggleClick initialState).calls = [] ∧
     (handleScreenShareToggle ⟨true, "ready"⟩ true "t0" initialState).calls =
       [toggleSharingReq (!initialState.isScreenSharing)] ∧
     (handleScreenShareToggle ⟨true, "ready"⟩ true "t0" initialState).state.isScreenSharing =
       (if true then !initialState.isScreenSharing else initialState.isScreenSharing)) :=
  ⟨rfl, C2_toggles_behavior ⟨true, "ready"⟩ true "t0" initialState rfl⟩

/-- C3 (counterexample): a small file whose MIME type `video/mp4` matches
no entry of the allow-set is nonetheless accepted by `processFile`,
submitted through the gateway, and retained — there is no
`UnsupportedType` rejection anywhere in the intake path. -/
theorem C3_mime_counterexample :
    mimeAllowed "video/mp4" "clip.mp4" = false ∧
    processFile ⟨"clip.mp4", "video/mp4", 5⟩ "t0" (some "data:video/mp4;base64,AAAA") =
      .ok ⟨"clip.mp4", "video/mp4", 5, "AAAA", "t0"⟩ ∧
    (submitFile ⟨true, "ready"⟩ true ⟨"clip.mp4", "video/mp4", 5⟩
        (some "data:video/mp4;base64,AAAA") "t0" initialState).calls =
      [uploadFileReq ⟨"clip.mp4", "video/mp4", 5, "AAAA", "t0"⟩] ∧
    (submitFile ⟨true, "ready"⟩ true ⟨"clip.mp4", "video/mp4", 5⟩
        (some "data:video/mp4;base64,AAAA") "t0" initialState).state.uploadedFiles =
      [⟨"clip.mp4", "video/mp4", 5, "AAAA", "t0"⟩] := by
  refine ⟨by decide, rfl, rfl, rfl⟩

/-- C3 (amended): `processFile` performs no MIME-type validation — every
file within the size ceiling whose read succeeds is accepted whatever its
MIME type, and with a non-null client it is submitted through the gateway
and, on success, retained.  The allow-set acts only through the file
chooser's `accept` attribute, which drag-and-drop bypasses. -/
theorem C3_no_mime_check (ctx : Ctx) (f : RawFile) (now r : String) (st : AppState)
    (h1 : f.size ≤ maxFileSize) (h2 : ctx.clientPresent = true) :
    processFile f now (some r) = .ok ⟨f.name, f.type, f.size, dataPart r, now⟩ ∧
    (submitFile ctx true f (some r) now st).calls =
      [uploadFileReq ⟨f.name, f.type, f.size, dataPart r, now⟩] ∧
    (submitFile ctx true f (some r) now st).state.uploadedFiles =
      st.uploadedFiles ++ [⟨f.name, f.type, f.size, dataPart r, now⟩] := by
  have hp : processFile f now (some r) = .ok ⟨f.name, f.type, f.size, dataPart r, now⟩ := by
    unfold processFile
    rw [if_neg (by omega)]
  refine ⟨hp, ?_, ?_⟩ <;> simp [submitFile, hp, handleFileUpload, h2]

/-- Witness for the amended C3 at a concrete disallowed-type file. -/
theorem C3_no_mime_check_witness :
    (⟨"clip.mp4", "video/mp4", 5⟩ : RawFile).size ≤ maxFileSize ∧
    (Ctx.mk true "ready").clientPresent = true ∧
    (processFile ⟨"clip.mp4", "video/mp4", 5⟩ "t0" (some "data:video/mp4;base64,AAAA") =
        .ok ⟨"clip.mp4", "video/mp4", 5,
          dataPart "data:video/mp4;base64,AAAA", "t0"⟩ ∧
     (submitFile ⟨true, "ready"⟩ true ⟨"clip.mp4", "video/mp4", 5⟩
         (some "data:video/mp4;base64,AAAA") "t0" initialState).calls =
       [uploadFileReq ⟨"clip.mp4", "video/mp4", 5,
         dataPart "data:video/mp4;base64,AAAA", "t0"⟩] ∧
     (submitFile ⟨true, "ready"⟩ true ⟨"clip.mp4", "video/mp4", 5⟩
         (some "data:video/mp4;base64,AAAA") "t0" initialState).state.uploadedFiles =
       initialState.uploadedFiles ++ [⟨"clip.mp4", "video/mp4", 5,
         dataPart "data:video/mp4;base64,AAAA", "t0"⟩]) :=
  ⟨by decide, rfl,
   C3_no_mime_check ⟨true, "ready"⟩ ⟨"clip.mp4", "video/mp4", 5⟩ "t0"
     "data:video/mp4;base64,AAAA" initialState (by decide) rfl⟩

/-- C4 (counterexample): a failed `send_text` dispatch (the remote call is
issued and rejects) leaves the Conversation Log unchanged and raises no
alert — the failure is recorded on the developer console only, refuting
the claim that every failed dispatch is surfaced to the user. -/
theorem C4_surfacing_counterexample :
    (handleSendMessage ⟨true, "ready"⟩ false "hi" "t0" initialState).calls =
      [sendTextReq "hi"] ∧
    (handleSendMessage ⟨true, "ready"⟩ false "hi" "t0" initialState).state.messages =
      initialState.messages ∧
    (handleSendMessage ⟨true, "ready"⟩ false "hi" "t0" initialState).alerts = [] ∧
    (handleSendMessage ⟨true, "ready"⟩ false "hi" "t0" initialState).consoleErrors =
      ["Send message failed:"] :=
  ⟨rfl, rfl, rfl, rfl⟩

/-- C4 (amended): only a failed file upload is surfaced to the user, as a
system Conversation Log entry naming the file; failed send-text,
screen-share-toggle, and analyze dispatches leave the log unchanged,
raise no alert, and are recorded on the developer console only. -/
theorem C4_failure_surfacing (ctx : Ctx) (message now : String) (fd file : FileData)
    (st : AppState) (h : ctx.clientPresent = true) :
    (handleFileUpload ctx false fd now st).state.messages =
      st.messages ++ [sysMsg ("Failed to upload " ++ fd.name) now] ∧
    (handleSendMessage ctx false message now st).state.messages = st.messages ∧
    (handleSendMessage ctx false message now st).alerts = [] ∧
    (handleSendMessage ctx false message now st).consoleErrors = ["Send message failed:"] ∧
    (handleScreenShareToggle ctx false now st).state.messages = st.messages ∧
    (handleScreenShareToggle ctx false now st).alerts = [] ∧
    (handleScreenShareToggle ctx false now st).consoleErrors =
      ["Screen share toggle failed:"] ∧
    (handleAnalyzeFile ctx false file now st).state.messages = st.messages ∧
    (handleAnalyzeFile ctx false file now st).alerts = [] ∧
    (handleAnalyzeFile ctx false file now st).consoleErrors = ["File analysis failed:"] := by
  simp [handleFileUpload, handleSendMessage, handleScreenShareToggle, handleAnalyzeFile, h]

/-- Witness for the amended C4 at a concrete connected context. -/
theorem C4_failure_surfacing_witness :
    (Ctx.mk true "ready").clientPresent = true ∧
    ((handleFileUpload ⟨true, "ready"⟩ false ⟨"a.txt", "text/plain", 3, "QUJD", "t0"⟩ "t0"
         initialState).state.messages =
       initialState.messages ++ [sysMsg ("Failed to upload " ++ "a.txt") "t0"] ∧
     (handleSendMessage ⟨true, "ready"⟩ false "hi" "t0" initialState).state.messages =
       initialState.messages ∧
     (handleSendMessage ⟨true, "ready"⟩ false "hi" "t0" initialState).alerts = [] ∧
     (handleSendMessage ⟨true, "ready"⟩ false "hi" "t0" initialState).consoleErrors =
       ["Send message failed:"] ∧
     (handleScreenShareToggle ⟨true, "ready"⟩ false "t0" initialState).state.messages =
       initialState.messages ∧
     (handleScreenShareToggle ⟨true, "ready"⟩ false "t0" initialState).alerts = [] ∧
     (handleScreenShareToggle ⟨true, "ready"⟩ false "t0" initialState).consoleErrors =
       ["Screen share toggle failed:"] ∧
     (handleAnalyzeFile ⟨true, "ready"⟩ false ⟨"a.txt", "text/plain", 3, "QUJD", "t0"⟩ "t0"
         initialState).state.messages = initialState.messages ∧
     (handleAnalyzeFile ⟨true, "ready"⟩ false ⟨"a.txt", "text/plain", 3, "QUJD", "t0"⟩ "t0"
         initialState).alerts = [] ∧
     (handleAnalyzeFile ⟨true, "ready"⟩ false ⟨"a.txt", "text/plain", 3, "QUJD", "t0"⟩ "t0"
         initialState).consoleErrors = ["File analysis failed:"]) :=
  ⟨rfl, C4_failure_surfacing ⟨true, "ready"⟩ "hi" "t0"
    ⟨"a.txt", "text/plain", 3, "QUJD", "t0"⟩ ⟨"a.txt", "text/plain", 3, "QUJD", "t0"⟩
    initialState rfl⟩

/-- C5: a file larger than `maxFileSize` is rejected synchronously with
the too-large error: the intake path makes no gateway call, raises only
the size alert, and leaves the whole component state (Conversation Log
and retained files included) unchanged. -/
theorem C5_too_large_rejected (ctx : Ctx) (outcome : Bool) (f : RawFile)
    (readResult : Option String) (now : String) (st : AppState)
    (h : f.size > maxFileSize) :
    processFile f now readResult = .error .TooLarge ∧
    (submitFile ctx outcome f readResult now st).state = st ∧
    (submitFile ctx outcome f readResult now st).calls = [] ∧
    (submitFile ctx outcome f readResult now st).alerts = [tooLargeAlert] := by
  have hp : processFile f now readResult = .error .TooLarge := by
    unfold processFile
    rw [if_pos h]
  refine ⟨hp, ?_, ?_, ?_⟩ <;> simp [submitFile, hp]

/-- Witness for C5: a 60 MiB file against the 50 MiB ceiling. -/
theorem C5_too_large_rejected_witness :
    (⟨"big.bin", "application/pdf", 60 * 1024 * 1024⟩ : RawFile).size > maxFileSize ∧
    (processFile ⟨"big.bin", "application/pdf", 60 * 1024 * 1024⟩ "t0" (some "d,x") =
        .error .TooLarge ∧
     (submitFile ⟨true, "ready"⟩ true ⟨"big.bin", "application/pdf", 60 * 1024 * 1024⟩
         (some "d,x") "t0" initialState).state = initialState ∧
     (submitFile ⟨true, "ready"⟩ true ⟨"big.bin", "application/pdf", 60 * 1024 * 1024⟩
         (some "d,x") "t0" initialState).calls = [] ∧
     (submitFile ⟨true, "ready"⟩ true ⟨"big.bin", "application/pdf", 60 * 1024 * 1024⟩
         (some "d,x") "t0" initialState).alerts = [tooLargeAlert]) :=
  ⟨by decide,
   C5_too_large_rejected ⟨true, "ready"⟩ true ⟨"big.bin", "application/pdf", 60 * 1024 * 1024⟩
     (some "d,x") "t0" initialState (by decide)⟩

/-- C6: a feature toggle whose remote call fails leaves its boolean flag
exactly at its pre-toggle value: the screen-share flag is unchanged on a
rejected `toggle_sharing` call (whatever the client context), and the mic
and camera toggles issue no remote call at all, so the law holds for them
vacuously. -/
theorem C6_toggle_rollback (ctx : Ctx) (now : String) (st : AppState) :
    (handleScreenShareToggle ctx false now st).state.isScreenSharing =
      st.isScreenSharing ∧
    (micToggleClick st).calls = [] ∧
    (cameraToggleClick st).calls = [] := by
  refine ⟨?_, rfl, rfl⟩
  by_cases h : ctx.clientPresent <;> simp [handleScreenShareToggle, h]

/-- C7: at every reachable state, `totalMessages` equals
`textMessages + voiceMessages` — the equation holds initially and is
preserved by every event of the component. -/
theorem C7_analytics_sum_invariant (ops : List Op) :
    (run ops).analytics.totalMessages =
      (run ops).analytics.textMessages + (run ops).analytics.voiceMessages :=
  analyticsInv_foldl ops initialState rfl

/-- C8: the result of an upload dispatch with a non-null client fully
determines the state change: on success the file is appended to the
retained collection and a success system message naming it is appended to
the log; on failure nothing is retained and a failure system message
naming the file is appended. -/
theorem C8_upload_result_determines_state (ts : String) (fd : FileData) (now : String)
    (st : AppState) :
    ((handleFileUpload ⟨true, ts⟩ true fd now st).state.uploadedFiles =
       st.uploadedFiles ++ [fd] ∧
     (handleFileUpload ⟨true, ts⟩ true fd now st).state.messages =
       st.messages ++ [sysMsg ("File uploaded: " ++ fd.name) now]) ∧
    ((handleFileUpload ⟨true, ts⟩ false fd now st).state.uploadedFiles =
       st.uploadedFiles ∧
     (handleFileUpload ⟨true, ts⟩ false fd now st).state.messages =
       st.messages ++ [sysMsg ("Failed to upload " ++ fd.name) now]) := by
  simp [handleFileUpload]

/-- C9: a failed `send_text` dispatch leaves the component state — hence
the Conversation Log and every analytics counter — exactly as it was
before the send was invoked. -/
theorem C9_send_failure_state_unchanged (ts message now : String) (st : AppState) :
    (handleSendMessage ⟨true, ts⟩ false message now st).state = st ∧
    (handleSendMessage ⟨true, ts⟩ false message now st).state.messages = st.messages ∧
    (handleSendMessage ⟨true, ts⟩ false message now st).state.analytics = st.analytics := by
  simp [handleSendMessage]

/-- C10: at every reachable state, `filesProcessed` equals the number of
retained uploaded files — both start at zero and are bumped together,
each by one, exactly when an upload dispatch succeeds. -/
theorem C10_files_processed_invariant (ops : List Op) :
    (run ops).analytics.filesProcessed = (run ops).uploadedFiles.length :=
  filesInv_foldl ops initialState rfl

end RTVI
